import Mathlib

/-!
# Verification of the tonpixo agent orchestration core

A shallow embedding of the agent orchestration engine of the tonpixo
backend (`backend/agent.py`, `backend/db.py`, `backend/mcp_client.py`):
string utilities, history trimming, the schema-before-SQL guardrail,
the streaming classifier, final-answer extraction, the retrying MCP
request primitive, and idempotent turn persistence, together with
theorems settling the specification's testable properties.

Python strings are modelled as Lean `String` (a list of characters);
machine integers as `Int`/`Nat`; fallible operations return
`Option`/`Except`.  Nondeterministic inputs (network responses, model
replies, generated uuids and timestamps) are passed in explicitly as
oracles/parameters.
-/

namespace Tonpixo

/-- Python `str.strip()` (whitespace on both ends), embedded over the
character list so that it evaluates by `decide`. -/
def pyStrip (s : String) : String :=
  String.mk (((s.toList.dropWhile Char.isWhitespace).reverse.dropWhile
    Char.isWhitespace).reverse)

/-- Python `str.strip("/")`. -/
def pyStripSlash (s : String) : String :=
  String.mk (((s.toList.dropWhile (· = '/')).reverse.dropWhile (· = '/')).reverse)

/-- Python `needle in hay` for strings (substring test). -/
def pyContains (needle : String) (hay : String) : Bool :=
  go needle.toList hay.toList
where
  go (n : List Char) : List Char → Bool
    | [] => n.isEmpty
    | c :: rest => n.isPrefixOf (c :: rest) || go n rest

/-- Python `str.lower()` restricted to the ASCII/char-wise case used here. -/
def pyLower (s : String) : String :=
  String.mk (s.toList.map Char.toLower)

/-- Python `s.startswith(p)`, over character lists. -/
def pyStartsWith (s p : String) : Bool :=
  p.toList.isPrefixOf s.toList

/-- `agent._truncate_text`: strip, then hard-truncate with a visible marker. -/
def truncateText (text : String) (maxChars : Nat) : String :=
  let compact := pyStrip text
  if compact.length ≤ maxChars then compact
  else compact.take maxChars ++ "\n...[truncated]"

/-- `agent._int_config`: parse a configured value (`none` models a raw
value that `int()` rejects, in which case the default is used) and clamp
it into `[minValue, maxValue]`. -/
def intConfig (raw : Option Int) (default : Int) (minValue maxValue : Int) : Int :=
  let parsed := raw.getD default
  max minValue (min maxValue parsed)

/-! ## Stream classifier (`agent.process_chat_stream`, classification core) -/

/-- A source event observed by the classifier: an extracted non-structural
text delta, a tool start, or a tool end (`on_chat_model_stream` /
`on_tool_start` / `on_tool_end` in `process_chat_stream`). -/
inductive StreamEvent
  | token (text : String)
  | toolStart (name : String)
  | toolEnd (name : String)
deriving Repr, DecidableEq

/-- An event yielded to the caller of `process_chat_stream`. -/
inductive OutEvent
  | thinking (content : String)
  | toolStart (name : String)
  | toolEnd (name : String)
  | token (content : String)
  | traceId (value : String)
  | error (message : String)
  | done
deriving Repr, DecidableEq

/-- The classifier's mutable locals in `process_chat_stream`:
`tools_used`, `pending_tool_count`, `post_tool_buffer`. -/
structure ClassifierState where
  toolsUsed : Bool
  pendingToolCount : Nat
  buffer : List String
deriving Repr, DecidableEq

def initClassifierState : ClassifierState :=
  { toolsUsed := false, pendingToolCount := 0, buffer := [] }

/-- One step of the classification loop body in `process_chat_stream`:
returns the new state and the events yielded for this source event. -/
def classifyStep (s : ClassifierState) : StreamEvent → ClassifierState × List OutEvent
  | .token text =>
      if text = "" then (s, [])
      else if !s.toolsUsed then
        ({ s with buffer := s.buffer ++ [text] }, [])
      else if s.pendingToolCount > 0 then
        (s, [.thinking text])
      else
        ({ s with buffer := s.buffer ++ [text] }, [])
  | .toolStart name =>
      ({ toolsUsed := true,
         pendingToolCount := s.pendingToolCount + 1,
         buffer := [] },
       s.buffer.map OutEvent.thinking ++ [.toolStart name])
  | .toolEnd name =>
      ({ s with pendingToolCount := s.pendingToolCount - 1 }, [.toolEnd name])

/-- Fold the classifier over a whole event sequence. -/
def classifyFold (events : List StreamEvent) : ClassifierState × List OutEvent :=
  events.foldl
    (fun (acc : ClassifierState × List OutEvent) e =>
      let (s', out) := classifyStep acc.1 e
      (s', acc.2 ++ out))
    (initClassifierState, [])

/-- The full classified output of `process_chat_stream` for a source event
sequence: the events yielded during the loop, followed by the end-of-stream
flush of the remaining buffer as `token` (final-answer) events.  The
subsequent `trace_id`/`done` bookkeeping events are outside the
classification core. -/
def runClassifier (events : List StreamEvent) : List OutEvent :=
  let (s, out) := classifyFold events
  out ++ s.buffer.map OutEvent.token

/-! ## Schema-before-SQL guardrail (`agent.create_data_tools`) -/

/-- Python `s.startswith(p)` followed by `s.replace(p, "", 1).strip("/")`
as used in `_is_schema_resource_name`; since the replacement is guarded by
`startswith`, the first occurrence is the prefix itself. -/
def stripResourceShape (p s : String) : String :=
  if pyStartsWith s p then pyStripSlash (String.mk (s.toList.drop p.toList.length))
  else s

/-- `agent.create_data_tools._is_schema_resource_name`: normalize the
name (strip whitespace and slashes, drop the accepted prefix shapes in
order) and test for the `schema/` category. -/
def isSchemaResourceName (resourceName : String) : Bool :=
  let normalized := pyStripSlash (pyStrip resourceName)
  if normalized = "" then false
  else
    let normalized := stripResourceShape "resource://tonpixo/" normalized
    let normalized := stripResourceShape "v1/resources/" normalized
    let normalized := stripResourceShape "resources/" normalized
    pyStartsWith normalized "schema/"

/-- The corrective instruction string returned by the `sql_query` tool
when the schema-first guard refuses the call. -/
def schemaGuardMessage : String :=
  "Schema is required before SQL execution. First call `get_mcp_resource_limited` with one or more schema resources, for example `schema/transactions`."

/-- What the `sql_query` tool does with a call, before any gateway
network interaction: refuse with the corrective string, or forward the
query (scoped by the session's job id) to the gateway. -/
inductive SqlAction
  | refused (message : String)
  | forwarded (query : String) (jobId : String)
deriving Repr, DecidableEq

/-- The guard branch of the `sql_query` tool in `create_data_tools`:
`requireSchema` is `AGENT_REQUIRE_SCHEMA_BEFORE_SQL`, `schemaLoaded` is
the session's `schema_state["loaded"]`. -/
def sqlQueryTool (requireSchema schemaLoaded : Bool) (query jobId : String) : SqlAction :=
  if requireSchema && !schemaLoaded then .refused schemaGuardMessage
  else .forwarded query jobId

/-- One session-visible event relevant to the guardrail: a resource fetch
attempt (`success = true` iff `mcp_client.get_resource` returned without
raising) or a `sql_query` tool call. -/
inductive SessionEvent
  | fetch (resourceName : String) (success : Bool)
  | sql (query : String)
deriving Repr, DecidableEq

/-- Whether a session event sets `schema_state["loaded"]`: exactly a
resource fetch on which `get_resource` returned and whose requested name
is a schema resource name (`_fetch_mcp_resource` sets the flag after the
fetch, only under `_is_schema_resource_name`; a raised fetch returns the
error string before reaching the flag update).  A blank resource name
returns even earlier, but `isSchemaResourceName` is `false` on it
anyway. -/
def fetchSetsFlag : SessionEvent → Bool
  | .fetch name success => success && isSchemaResourceName name
  | .sql _ => false

/-- The value of `schema_state["loaded"]` after processing a sequence of
session events, starting from a fresh session (`False`); nothing except
`_fetch_mcp_resource` touches the flag. -/
def schemaLoadedAfter (events : List SessionEvent) : Bool :=
  events.foldl (fun loaded e => loaded || fetchSetsFlag e) false

/-- `events` contains a successful fetch of a schema resource. -/
def hasSchemaFetch (events : List SessionEvent) : Bool :=
  events.any fetchSetsFlag

/-- The action taken for a `sql_query` call issued after the events `pre`
in a session with the schema-first policy `requireSchema`. -/
def sqlOutcome (requireSchema : Bool) (pre : List SessionEvent)
    (query jobId : String) : SqlAction :=
  sqlQueryTool requireSchema (schemaLoadedAfter pre) query jobId

/-! ## Resource fetch content processing (`agent._fetch_mcp_resource`) -/

/-- The window-collection loop of the focus filter: for each of the first
six matching line indices, append the lines in the `[index-4, index+5)`
window that are not already included. -/
def collectFocusWindows (lines : List String) (matchIdx : List Nat) : List String :=
  ((matchIdx.take 6).foldl
    (fun (acc : List String × List Nat) index =>
      let start := index - 4
      let stop := min lines.length (index + 5)
      (List.range' start (stop - start)).foldl
        (fun (acc2 : List String × List Nat) lineIndex =>
          if acc2.2.contains lineIndex then acc2
          else (acc2.1 ++ [lines.getD lineIndex ""], acc2.2 ++ [lineIndex]))
        acc)
    ([], [])).1

/-- The `focus` filtering step of `_fetch_mcp_resource`: keep a windowed
extract around (case-insensitively) matching lines; if the keyword is
blank, there is no match, or the extract strips to empty, keep the full
content. -/
def focusFilter (content : String) (focus : String) : String :=
  let focusText := pyLower (pyStrip focus)
  if focusText = "" then content
  else
    let lines := content.splitOn "\n"
    let matchIdx :=
      (lines.enum.filter fun li => pyContains focusText (pyLower li.2)).map (·.1)
    if matchIdx = [] then content
    else
      let focused := pyStrip (String.intercalate "\n" (collectFocusWindows lines matchIdx))
      if focused = "" then content else focused

/-- The `max_chars` clamp of `_fetch_mcp_resource`: `parsedMax = none`
models a caller value `int()` rejects, in which case the configured
default (`AGENT_RESOURCE_MAX_CHARS`) is used; the result is clamped into
`[500, 30000]`. -/
def clampResourceMax (parsedMax : Option Int) (defaultMax : Int) : Int :=
  max 500 (min 30000 (parsedMax.getD defaultMax))

/-- The final truncation of `_fetch_mcp_resource`: contents longer than
`safeMax` are cut to that prefix with a visible truncation marker. -/
def resourceTruncate (content : String) (safeMax : Nat) : String :=
  if content.length > safeMax then
    content.take safeMax ++ "\n...[truncated at " ++ toString safeMax ++ " chars]"
  else content

/-- The content post-processing of `_fetch_mcp_resource` after a
successful gateway fetch: focus filtering, then clamped truncation. -/
def fetchProcessContent (content focus : String) (parsedMax : Option Int)
    (defaultMax : Int) : String :=
  resourceTruncate (focusFilter content focus) (clampResourceMax parsedMax defaultMax).toNat

/-! ## History trimming (`agent._trim_history_messages`) -/

/-- The runtime classes relevant to history trimming: `HumanMessage`,
`AIMessage`, and any other `BaseMessage` subclass. -/
inductive Role
  | human
  | ai
  | other
deriving Repr, DecidableEq

/-- A history message as `_trim_history_messages` sees it. -/
structure Msg where
  role : Role
  content : String
deriving Repr, DecidableEq

/-- First loop of `_trim_history_messages`: per-message truncation to
`messageMaxChars`, dropping messages that become empty.  Human/AI
messages are rebuilt with the truncated content; other message kinds are
kept with their original content. -/
def perMessageTrim (messageMaxChars : Nat) (messages : List Msg) : List Msg :=
  messages.filterMap fun m =>
    let content := truncateText m.content messageMaxChars
    if content = "" then none
    else
      match m.role with
      | .human => some ⟨.human, content⟩
      | .ai => some ⟨.ai, content⟩
      | .other => some m

/-- Second loop of `_trim_history_messages` over the reversed (newest
first) list: keep every message whose cost fits the remaining budget;
skip messages that do not fit once something is kept; if the very first
candidate does not fit, keep a suffix-truncated version of it alone (for
human/AI messages) and stop. -/
def budgetWalk (budget : Nat) (kept : List Msg) : List Msg → List Msg
  | [] => kept
  | m :: rest =>
      let cost := m.content.length
      if cost ≤ budget then budgetWalk (budget - cost) (kept ++ [m]) rest
      else if kept ≠ [] then budgetWalk budget kept rest
      else
        match m.role with
        | .human => [⟨.human, truncateText m.content budget⟩]
        | .ai => [⟨.ai, truncateText m.content budget⟩]
        | .other => []

/-- `agent._trim_history_messages`, parameterized by the configured
limits (`AGENT_MESSAGE_MAX_CHARS`, `AGENT_HISTORY_MAX_MESSAGES`,
`AGENT_HISTORY_MAX_CHARS`). -/
def trimHistoryMessages (messageMaxChars historyMaxMessages historyMaxChars : Nat)
    (messages : List Msg) : List Msg :=
  let trimmed := perMessageTrim messageMaxChars messages
  let trimmed :=
    if historyMaxMessages > 0 && trimmed.length > historyMaxMessages then
      trimmed.drop (trimmed.length - historyMaxMessages)
    else trimmed
  if trimmed = [] then trimmed
  else (budgetWalk historyMaxChars [] trimmed.reverse).reverse

/-! ## Agent control loop and final-answer extraction
(`agent.create_agent_graph`, `agent.process_chat`) -/

/-- A message in the agent session's message list.  Tool calls are
abstracted to their names: only emptiness of the list matters to the
control flow (`should_continue`, answer extraction). -/
inductive ChatMsg
  | system (content : String)
  | human (content : String)
  | ai (content : String) (toolCalls : List String)
  | toolMsg (content : String)
deriving Repr, DecidableEq

/-- Scan step of the final-answer extraction in `process_chat` (the
`for message in reversed(result["messages"])` loop): the list is already
reversed (newest first).  The nested guard `not (message.tool_calls and
not message.content)` is embedded verbatim. -/
def extractAnswerGo : List ChatMsg → String
  | [] => "I couldn't generate a response."
  | .ai content toolCalls :: rest =>
      if content ≠ "" then
        if ¬(toolCalls ≠ [] ∧ content = "") then content
        else extractAnswerGo rest
      else extractAnswerGo rest
  | _ :: rest => extractAnswerGo rest

/-- Final-answer extraction of `process_chat`: newest-to-oldest scan with
the fixed fallback answer. -/
def extractAnswer (messages : List ChatMsg) : String :=
  extractAnswerGo messages.reverse

/-- One reply of the model: text content plus requested tool calls. -/
structure ModelReply where
  content : String
  toolCalls : List String
deriving Repr, DecidableEq

/-- `agent_node`'s local prepend: the system prompt is added for the
model invocation when the state does not already start with it. -/
def withSystemPrompt (systemPrompt : String) (messages : List ChatMsg) : List ChatMsg :=
  match messages with
  | .system _ :: _ => messages
  | _ => .system systemPrompt :: messages

/-- The compiled graph of `create_agent_graph` run under a recursion
limit: `agent_node` invokes the model, `should_continue` routes to the
tool node exactly when the reply carries tool calls, and the tool node
appends one textual result per requested call before returning to the
agent node.

Modelled from the spec: the bound itself — the graph runtime (an
external library, not part of this repository's sources) aborts the
invocation with a recursion-limit error once the configured number of
reasoning/acting cycles is exhausted, "reported as an error, not
silently truncated" — is embedded as the fuel-out branch. -/
def runAgentGraph (model : List ChatMsg → ModelReply) (systemPrompt : String)
    (toolResult : String → String) :
    Nat → List ChatMsg → Except String (List ChatMsg)
  | 0, _ => .error "Recursion limit reached"
  | fuel + 1, messages =>
      let reply := model (withSystemPrompt systemPrompt messages)
      let messages := messages ++ [.ai reply.content reply.toolCalls]
      if reply.toolCalls.isEmpty then .ok messages
      else
        runAgentGraph model systemPrompt toolResult fuel
          (messages ++ reply.toolCalls.map fun t => .toolMsg (toolResult t))

/-- The tail of `process_chat`: a normally-terminated graph run yields
the extracted final answer; a raised error (including the graph
runtime's recursion-limit error) is caught by the `except` block and
reported as the apologetic error string. -/
def processChatResult (model : List ChatMsg → ModelReply) (systemPrompt : String)
    (toolResult : String → String) (recursionLimit : Nat)
    (initial : List ChatMsg) : String :=
  match runAgentGraph model systemPrompt toolResult recursionLimit initial with
  | .ok messages => extractAnswer messages
  | .error e => "I encountered an error analyzing the data: " ++ e

/-! ## Entry-point question gate (`process_chat`, `process_chat_stream`) -/

/-- Outcome of an entry point together with whether the model was ever
invoked on the question. -/
structure EntryOutcome (α : Type) where
  result : α
  modelInvoked : Bool
deriving Repr, DecidableEq

/-- The question gate of `process_chat`: truncate/strip the question;
a blank question short-circuits to the fixed rejection message before
the agent graph is ever invoked on it. -/
def processChatEntry (question : String) (questionMaxChars : Nat)
    (runAgent : String → String) : EntryOutcome String :=
  let questionText := truncateText question questionMaxChars
  if questionText = "" then ⟨"Please provide a non-empty question.", false⟩
  else ⟨runAgent questionText, true⟩

/-- The question gate of `process_chat_stream`: a blank question yields a
single terminating `error` event carrying the fixed rejection message
and the generator returns; otherwise the classified stream is produced. -/
def processChatStreamEntry (question : String) (questionMaxChars : Nat)
    (runAgentStream : String → List OutEvent) : EntryOutcome (List OutEvent) :=
  let questionText := truncateText question questionMaxChars
  if questionText = "" then ⟨[.error "Please provide a non-empty question."], false⟩
  else ⟨runAgentStream questionText, true⟩

/-! ## Retrying gateway request primitive (`mcp_client.MCPClient._request`) -/

/-- Outcome of one HTTP attempt: a response with a status code and a body
(`none` models a body `response.json()` rejects), or a raised transport
exception. -/
inductive AttemptOutcome
  | response (status : Nat) (body : Option String)
  | exn (errorType : String)
deriving Repr, DecidableEq

/-- The `MCPClientError` values raised in `_request`, one constructor per
raise site, carrying exactly the data interpolated into that site's
message. -/
inductive MCPErr
  | notConfigured
  | requestFailed (status : Nat) (path : String)
  | nonJsonResponse (status : Nat) (path : String)
  | requestError (path : String)
deriving Repr, DecidableEq

/-- `True` for the `MCPClientError` raise sites whose message carries the
response status (`"status=..."`). -/
def MCPErr.carriesStatus : MCPErr → Bool
  | .requestFailed _ _ => true
  | .nonJsonResponse _ _ => true
  | .notConfigured => false
  | .requestError _ => false

/-- `requests.Response.ok`: status strictly below 400. -/
def responseOk (status : Nat) : Bool := status < 400

/-- The attempt loop of `_request`, from attempt index `attempt` with
`fuel = retryMax + 1 - attempt` iterations remaining.  Returns the
result seen by the caller together with the list of back-off sleeps
performed, in units of 250 ms (the code sleeps `0.25 * (attempt + 1)`
seconds).  Every raise inside the loop body — including the
status-carrying `MCPClientError`s for non-OK statuses and non-JSON
bodies — is caught by the loop's own `except Exception` handler and
retried while attempts remain; falling out of the loop raises the
generic path-only error. -/
def requestGo (retryMax : Nat) (path : String) (oracle : Nat → AttemptOutcome) :
    Nat → Nat → Except MCPErr String × List Nat
  | 0, _ => (.error (.requestError path), [])
  | fuel + 1, attempt =>
      let retry : Except MCPErr String × List Nat :=
        if attempt < retryMax then
          let (r, sleeps) := requestGo retryMax path oracle fuel (attempt + 1)
          (r, (attempt + 1) :: sleeps)
        else (.error (.requestError path), [])
      match oracle attempt with
      | .exn _ => retry
      | .response status body =>
          if 500 ≤ status && attempt < retryMax then
            -- transient 5xx branch: sleep and continue
            let (r, sleeps) := requestGo retryMax path oracle fuel (attempt + 1)
            (r, (attempt + 1) :: sleeps)
          else if !responseOk status then
            -- `raise MCPClientError(f"MCP request failed (status=..., path=...)")`,
            -- caught by the `except Exception` handler
            retry
          else
            match body with
            | some payload => (.ok payload, [])
            | none =>
                -- `raise MCPClientError(f"MCP returned non-JSON response ...")`,
                -- caught by the `except Exception` handler
                retry

/-- `MCPClient._request` with a configured base URL: run the attempt loop
for `retryMax + 1` attempts. -/
def mcpRequest (retryMax : Nat) (path : String) (oracle : Nat → AttemptOutcome) :
    Except MCPErr String × List Nat :=
  requestGo retryMax path oracle (retryMax + 1) 0

/-! ## Idempotent turn persistence (`db.save_message`) -/

def IDEMPOTENCY_GUARD_MARKER : String := "__idempotency_guard__#"

/-- `db._build_idempotency_guard_sort_key`. -/
def buildIdempotencyGuardSortKey (idempotencyKey : String) : String :=
  IDEMPOTENCY_GUARD_MARKER ++ idempotencyKey

/-- One item of the messages table.  Fields absent on an item are
`none` (the code only sets `trace_id`/`idempotency_key` when truthy, and
guard items carry `item_type`/`message_created_at` instead of
`role`/`content`). -/
structure DBItem where
  chat_id : String
  created_at : String
  message_id : Option String := none
  role : Option String := none
  content : Option String := none
  trace_id : Option String := none
  idempotency_key : Option String := none
  item_type : Option String := none
  message_created_at : Option String := none
deriving Repr, DecidableEq

/-- `db._is_idempotency_guard_item`. -/
def isIdempotencyGuardItem (item : DBItem) : Bool :=
  pyStartsWith item.created_at IDEMPOTENCY_GUARD_MARKER ||
    item.item_type = some "idempotency_guard"

/-- The messages table, modelled as a list of items keyed by
`(chat_id, created_at)`. -/
abbrev MessagesTable := List DBItem

/-- Is there an item with the given primary key? -/
def keyExists (table : MessagesTable) (chatId createdAt : String) : Bool :=
  table.any fun i => i.chat_id = chatId && i.created_at = createdAt

/-- DynamoDB `get_item` by primary key. -/
def getItem (table : MessagesTable) (chatId createdAt : String) : Option DBItem :=
  table.find? fun i => i.chat_id = chatId && i.created_at = createdAt

/-- DynamoDB `put_item` without condition: replace any item with the same
primary key. -/
def putItem (table : MessagesTable) (item : DBItem) : MessagesTable :=
  (table.filter fun i =>
    !(i.chat_id = item.chat_id && i.created_at = item.created_at)) ++ [item]

/-- `transact_write_items` with two `Put`s, each conditioned on
`attribute_not_exists(chat_id) AND attribute_not_exists(created_at)`:
`none` models the raised `TransactionCanceledException`. -/
def transactPutTwo (table : MessagesTable) (a b : DBItem) : Option MessagesTable :=
  if keyExists table a.chat_id a.created_at || keyExists table b.chat_id b.created_at then
    none
  else some (table ++ [a, b])

/-- `db.save_message` with the table configured.  The generated
`datetime.utcnow().isoformat()` timestamp and `uuid4` message id are
passed in explicitly.  Returns the updated table and the value returned
to the caller (`none` models Python `None`). -/
def save_message (table : MessagesTable) (chatId role content : String)
    (traceId idempotencyKey : Option String) (timestamp messageId : String) :
    MessagesTable × Option String :=
  let messageItem : DBItem :=
    { chat_id := chatId, created_at := timestamp, message_id := some messageId,
      role := some role, content := some content,
      trace_id := traceId, idempotency_key := idempotencyKey }
  match idempotencyKey with
  | none => (putItem table messageItem, some messageId)
  | some k =>
      let guardItem : DBItem :=
        { chat_id := chatId, created_at := buildIdempotencyGuardSortKey k,
          item_type := some "idempotency_guard",
          idempotency_key := some k,
          message_id := some messageId,
          message_created_at := some timestamp }
      match transactPutTwo table guardItem messageItem with
      | some table' => (table', some messageId)
      | none =>
          -- TransactionCanceledException: look up the existing guard and
          -- return its referenced message id; otherwise report failure.
          match getItem table chatId (buildIdempotencyGuardSortKey k) with
          | some guard =>
              match guard.message_id with
              | some existingId => (table, some existingId)
              | none => (table, none)
          | none => (table, none)

/-- `db.get_chat_messages` restricted to what the claims need: the items
of one chat partition with guard-only records filtered out (the real
query additionally orders by the `created_at` sort key, which does not
affect membership or counts). -/
def get_chat_messages (table : MessagesTable) (chatId : String) : List DBItem :=
  (table.filter fun i => i.chat_id = chatId).filter fun i => !isIdempotencyGuardItem i

/-! ## Helper lemmas -/

theorem foldl_or_eq_any (f : SessionEvent → Bool) (l : List SessionEvent) :
    ∀ b : Bool, l.foldl (fun loaded e => loaded || f e) b = (b || l.any f) := by
  induction l with
  | nil => intro b; simp
  | cons e t ih => intro b; simp [List.foldl_cons, List.any_cons, ih, Bool.or_assoc]

theorem schemaLoadedAfter_eq_hasSchemaFetch (events : List SessionEvent) :
    schemaLoadedAfter events = hasSchemaFetch events := by
  simpa [schemaLoadedAfter, hasSchemaFetch] using foldl_or_eq_any fetchSetsFlag events false

/-! ## Claim theorems -/

/-- C1: in a session with the schema-before-SQL policy enabled, every
`sql_query` tool call made before any (successful) schema resource fetch
is refused with the corrective instruction string — an ordinary string
result, not an exception — and every `sql_query` call made after a schema
resource fetch has happened in the session is forwarded to the gateway,
not refused by the guardrail. -/
theorem sql_guard_schema_first (pre : List SessionEvent) (query jobId : String) :
    (hasSchemaFetch pre = false →
      sqlOutcome true pre query jobId = .refused schemaGuardMessage) ∧
    (hasSchemaFetch pre = true →
      sqlOutcome true pre query jobId = .forwarded query jobId) := by
  constructor <;> intro h <;>
    simp [sqlOutcome, sqlQueryTool, schemaLoadedAfter_eq_hasSchemaFetch, h]

theorem sql_guard_schema_first_witness :
    sqlOutcome true [] "SELECT 1" "J1" = .refused schemaGuardMessage ∧
    sqlOutcome true [.fetch "schema/transactions" true] "SELECT 1" "J1" =
      .forwarded "SELECT 1" "J1" :=
  ⟨(sql_guard_schema_first [] "SELECT 1" "J1").1 (by decide),
   (sql_guard_schema_first [.fetch "schema/transactions" true] "SELECT 1" "J1").2 (by decide)⟩

/-- C2: on the classifier input sequence
`[token "a", tool_start "t", token "b", tool_end "t", token "c"]` the
loop yields exactly
`[thinking "a", tool_start "t", thinking "b", tool_end "t"]` — text
before the first tool and text while a tool is pending become `thinking`
— while `"c"` stays in the buffer until the stream ends, at which point
it is flushed as a `token` event. -/
theorem classifier_example_sequence :
    classifyFold [.token "a", .toolStart "t", .token "b", .toolEnd "t", .token "c"] =
      (⟨true, 0, ["c"]⟩,
       [.thinking "a", .toolStart "t", .thinking "b", .toolEnd "t"]) ∧
    runClassifier [.token "a", .toolStart "t", .token "b", .toolEnd "t", .token "c"] =
      [.thinking "a", .toolStart "t", .thinking "b", .toolEnd "t", .token "c"] := by
  decide

/-- C10: the session's schema-loaded flag, `false` at session start,
becomes `true` under an event exactly when that event is a resource
fetch that succeeded and whose requested name — after stripping the
accepted prefix shapes — falls under the `schema/` category
(`fetchSetsFlag` unfolds to `success && isSchemaResourceName name`); in
particular a failed schema-resource fetch leaves the flag unchanged, so
a subsequent `sql_query` is still refused by the guardrail. -/
theorem schema_flag_transition (events : List SessionEvent) (name query jobId : String) :
    (∀ success, schemaLoadedAfter (events ++ [.fetch name success]) =
      (schemaLoadedAfter events || (success && isSchemaResourceName name))) ∧
    (schemaLoadedAfter events = false →
      sqlOutcome true (events ++ [.fetch name false]) query jobId =
        .refused schemaGuardMessage) := by
  constructor
  · intro success
    simp [schemaLoadedAfter, List.foldl_append, fetchSetsFlag]
  · intro h
    have h' : schemaLoadedAfter (events ++ [.fetch name false]) = false := by
      simp [schemaLoadedAfter, List.foldl_append, fetchSetsFlag]
      simpa [schemaLoadedAfter] using h
    simp [sqlOutcome, sqlQueryTool, h']

theorem schema_flag_transition_witness :
    sqlOutcome true [.fetch "schema/transactions" false, .fetch "schema/transactions" false]
      "SELECT 1" "J1" = .refused schemaGuardMessage :=
  (schema_flag_transition [.fetch "schema/transactions" false] "schema/transactions"
    "SELECT 1" "J1").2 (by decide)

theorem budgetWalk_mem_of_kept (ms : List Msg) :
    ∀ (budget : Nat) (kept : List Msg) (x : Msg), kept ≠ [] →
      x ∈ budgetWalk budget kept ms → x ∈ kept ∨ x ∈ ms := by
  induction ms with
  | nil =>
      intro budget kept x _ hx
      simp only [budgetWalk] at hx
      exact .inl hx
  | cons m rest ih =>
      intro budget kept x hk hx
      simp only [budgetWalk] at hx
      by_cases hc : m.content.length ≤ budget
      · rw [if_pos hc] at hx
        rcases ih _ _ _ (by simp) hx with h | h
        · rcases List.mem_append.mp h with h | h
          · exact .inl h
          · simp only [List.mem_singleton] at h
            exact .inr (h ▸ List.mem_cons_self m rest)
        · exact .inr (List.mem_cons_of_mem _ h)
      · rw [if_neg hc, if_pos hk] at hx
        rcases ih _ _ _ hk hx with h | h
        · exact .inl h
        · exact .inr (List.mem_cons_of_mem _ h)

/-- C5: the budget walk of `_trim_history_messages` goes newest to
oldest, keeping messages whose cumulative character cost fits the total
budget.  With a total budget of 10 and two prior messages of lengths 6
and 8 (newest first, i.e. chronologically `[8-char, 6-char]`), only the
newest message survives, in full and in chronological order — the older
one is dropped entirely.  Moreover, whenever the very first (newest)
candidate fits the whole budget on its own, every message the walk keeps
is one of the input messages unmodified: partial suffix-truncation can
only happen when the newest candidate alone exceeds the whole budget. -/
theorem trim_history_budget_drop :
    trimHistoryMessages 8000 10 10 [⟨.human, "aaaaaaaa"⟩, ⟨.human, "bbbbbb"⟩] =
      [⟨.human, "bbbbbb"⟩] ∧
    (∀ (budget : Nat) (m : Msg) (ms : List Msg) (x : Msg),
      m.content.length ≤ budget →
      x ∈ budgetWalk budget [] (m :: ms) → x ∈ m :: ms) := by
  constructor
  · decide
  · intro budget m ms x hfit hx
    simp only [budgetWalk, if_pos hfit, List.nil_append] at hx
    rcases budgetWalk_mem_of_kept ms (budget - m.content.length) [m] x (by simp) hx with h | h
    · simp only [List.mem_singleton] at h
      exact h ▸ List.mem_cons_self m ms
    · exact List.mem_cons_of_mem _ h

theorem trim_history_budget_drop_witness :
    (⟨Role.human, "bbbbbb"⟩ : Msg) ∈
      [(⟨Role.human, "bbbbbb"⟩ : Msg), ⟨Role.human, "aaaaaaaa"⟩] :=
  trim_history_budget_drop.2 10 ⟨Role.human, "bbbbbb"⟩ [⟨Role.human, "aaaaaaaa"⟩]
    ⟨Role.human, "bbbbbb"⟩ (by decide) (by decide)

theorem extractAnswerGo_ne_empty (l : List ChatMsg) : extractAnswerGo l ≠ "" := by
  induction l with
  | nil => decide
  | cons m rest ih =>
      cases m with
      | system c => simpa only [extractAnswerGo] using ih
      | human c => simpa only [extractAnswerGo] using ih
      | toolMsg c => simpa only [extractAnswerGo] using ih
      | ai c tc =>
          simp only [extractAnswerGo]
          by_cases hc : c = ""
          · rw [if_neg (not_not_intro hc)]
            exact ih
          · rw [if_pos hc, if_pos (fun h => hc h.2)]
            exact hc

/-- C6: final-answer extraction scans the completed message list newest
to oldest and returns the content of the first model-authored message
with non-empty text; for any message list ending in a tool-call-only
(empty-content) AI message followed by the AI message
`"The answer is 42"`, it returns `"The answer is 42"`; the extracted
answer is never the empty string, and on a list with no qualifying
message the fixed non-empty fallback is returned. -/
theorem final_answer_extraction (pre : List ChatMsg) :
    extractAnswer (pre ++ [.ai "" ["call_1"], .ai "The answer is 42" []]) =
      "The answer is 42" ∧
    (∀ messages : List ChatMsg, extractAnswer messages ≠ "") ∧
    extractAnswer [] = "I couldn't generate a response." := by
  refine ⟨?_, fun messages => extractAnswerGo_ne_empty messages.reverse, by decide⟩
  have h : (pre ++ [ChatMsg.ai "" ["call_1"], ChatMsg.ai "The answer is 42" []]).reverse =
      ChatMsg.ai "The answer is 42" [] :: ChatMsg.ai "" ["call_1"] :: pre.reverse := by
    simp
  rw [extractAnswer, h]
  rfl

theorem final_answer_extraction_witness :
    extractAnswer [ChatMsg.human "q", ChatMsg.ai "" ["call_1"],
      ChatMsg.ai "The answer is 42" []] = "The answer is 42" :=
  (final_answer_extraction [ChatMsg.human "q"]).1

theorem runAgentGraph_always_tools_error (model : List ChatMsg → ModelReply)
    (systemPrompt : String) (toolResult : String → String)
    (hAlways : ∀ msgs, (model msgs).toolCalls ≠ []) :
    ∀ (fuel : Nat) (messages : List ChatMsg),
      runAgentGraph model systemPrompt toolResult fuel messages =
        .error "Recursion limit reached" := by
  intro fuel
  induction fuel with
  | zero => intro messages; rfl
  | succ n ih =>
      intro messages
      simp only [runAgentGraph]
      rw [if_neg]
      · exact ih _
      · simp only [List.isEmpty_iff]
        exact fun h => hAlways (withSystemPrompt systemPrompt messages) h

/-- C4: the agent recursion limit configured through `_int_config`
(`AGENT_RECURSION_LIMIT`) is always clamped into `[4, 40]`, with an
unparseable value falling back to the default `15`; and an invocation
whose model requests a tool call on every reasoning step never reaches a
terminal answer: the graph run ends in the recursion-limit error for
every limit value, which `process_chat`'s exception handler turns into
the user-visible error result rather than a silently truncated answer. -/
theorem recursion_limit_clamped_and_fatal (raw : Option Int)
    (model : List ChatMsg → ModelReply) (systemPrompt : String)
    (toolResult : String → String) (limit : Nat) (initial : List ChatMsg)
    (hAlways : ∀ msgs, (model msgs).toolCalls ≠ []) :
    4 ≤ intConfig raw 15 4 40 ∧ intConfig raw 15 4 40 ≤ 40 ∧
    intConfig none 15 4 40 = 15 ∧
    runAgentGraph model systemPrompt toolResult limit initial =
      .error "Recursion limit reached" ∧
    processChatResult model systemPrompt toolResult limit initial =
      "I encountered an error analyzing the data: Recursion limit reached" := by
  refine ⟨le_max_left _ _, ?_, by decide,
    runAgentGraph_always_tools_error model systemPrompt toolResult hAlways limit initial, ?_⟩
  · exact max_le (by norm_num) (min_le_left _ _)
  · unfold processChatResult
    rw [runAgentGraph_always_tools_error model systemPrompt toolResult hAlways limit initial]
    rfl

theorem recursion_limit_clamped_and_fatal_witness :
    processChatResult (fun _ => ⟨"", ["sql_query"]⟩) "prompt" (fun t => "result:" ++ t)
      15 [ChatMsg.human "q"] =
      "I encountered an error analyzing the data: Recursion limit reached" :=
  (recursion_limit_clamped_and_fatal (some 15) (fun _ => ⟨"", ["sql_query"]⟩) "prompt"
    (fun t => "result:" ++ t) 15 [ChatMsg.human "q"]
    (fun _ => List.cons_ne_nil "sql_query" [])).2.2.2.2

/-- C8: for every question that strips to the empty string (empty or
whitespace-only), both the synchronous entry point and the streaming
entry point short-circuit to the fixed rejection message — in the
streaming case a single terminating `error` event carrying it — with the
model never invoked. -/
theorem blank_question_rejected (question : String) (questionMaxChars : Nat)
    (runAgent : String → String) (runAgentStream : String → List OutEvent)
    (hblank : pyStrip question = "") :
    processChatEntry question questionMaxChars runAgent =
      ⟨"Please provide a non-empty question.", false⟩ ∧
    processChatStreamEntry question questionMaxChars runAgentStream =
      ⟨[.error "Please provide a non-empty question."], false⟩ := by
  have ht : truncateText question questionMaxChars = "" := by
    simp [truncateText, hblank]
  exact ⟨by simp [processChatEntry, ht], by simp [processChatStreamEntry, ht]⟩

theorem blank_question_rejected_witness :
    processChatEntry " \n\t " 8000 (fun q => "answer to " ++ q) =
      ⟨"Please provide a non-empty question.", false⟩ ∧
    processChatStreamEntry " \n\t " 8000 (fun q => [.token ("answer to " ++ q)]) =
      ⟨[.error "Please provide a non-empty question."], false⟩ :=
  blank_question_rejected " \n\t " 8000 (fun q => "answer to " ++ q)
    (fun q => [.token ("answer to " ++ q)]) (by decide)

/-- C9: for every call to the limited resource-fetch tool, whatever the
caller supplied for `max_chars` (with `none` modelling a non-numeric
value that falls back to the configured default), the effective limit is
clamped into `[500, 30000]`; and whenever the (possibly focus-filtered)
fetched content exceeds that limit, the returned text is the prefix of
that length followed by the visible truncation marker. -/
theorem resource_limit_clamped (content focus : String) (parsedMax : Option Int)
    (defaultMax : Int)
    (h : (focusFilter content focus).length > (clampResourceMax parsedMax defaultMax).toNat) :
    500 ≤ clampResourceMax parsedMax defaultMax ∧
    clampResourceMax parsedMax defaultMax ≤ 30000 ∧
    fetchProcessContent content focus parsedMax defaultMax =
      (focusFilter content focus).take (clampResourceMax parsedMax defaultMax).toNat ++
        "\n...[truncated at " ++ toString (clampResourceMax parsedMax defaultMax).toNat ++
        " chars]" := by
  refine ⟨le_max_left _ _, max_le (by norm_num) (min_le_left _ _), ?_⟩
  simp [fetchProcessContent, resourceTruncate, h]

set_option maxRecDepth 10000 in
theorem resource_limit_clamped_witness :
    fetchProcessContent (String.mk (List.replicate 501 'a')) "" (some 500) 32000 =
      (focusFilter (String.mk (List.replicate 501 'a')) "").take
          (clampResourceMax (some 500) 32000).toNat ++
        "\n...[truncated at " ++ toString (clampResourceMax (some 500) 32000).toNat ++
        " chars]" :=
  (resource_limit_clamped (String.mk (List.replicate 501 'a')) "" (some 500) 32000
    (by decide)).2.2

theorem requestGo_all_5xx (retryMax : Nat) (path : String)
    (oracle : Nat → AttemptOutcome)
    (h : ∀ n, ∃ s body, oracle n = .response s body ∧ 500 ≤ s) :
    ∀ fuel attempt, fuel + attempt = retryMax + 1 →
      requestGo retryMax path oracle fuel attempt =
        (.error (.requestError path), List.range' (attempt + 1) (fuel - 1)) := by
  intro fuel
  induction fuel with
  | zero => intro attempt _; simp [requestGo]
  | succ n ih =>
      intro attempt hfa
      obtain ⟨s, body, hor, hs⟩ := h attempt
      simp only [requestGo, hor]
      have hok : responseOk s = false := by
        simp only [responseOk, decide_eq_false_iff_not]
        omega
      rcases Nat.eq_zero_or_pos n with hn | hn
      · subst hn
        have ha : attempt = retryMax := by omega
        rw [if_neg (by simp [ha]), if_pos (by simp [hok])]
        simp [ha, List.range']
      · have ha : attempt < retryMax := by omega
        rw [if_pos (by simp [hs, ha])]
        rw [ih (attempt + 1) (by omega)]
        obtain ⟨m, rfl⟩ : ∃ m, n = m + 1 := ⟨n - 1, by omega⟩
        simp [List.range'_succ]

theorem requestGo_all_nonjson (retryMax : Nat) (path : String)
    (oracle : Nat → AttemptOutcome)
    (h : ∀ n, ∃ s, oracle n = .response s none ∧ responseOk s = true) :
    ∀ fuel attempt, fuel + attempt = retryMax + 1 →
      requestGo retryMax path oracle fuel attempt =
        (.error (.requestError path), List.range' (attempt + 1) (fuel - 1)) := by
  intro fuel
  induction fuel with
  | zero => intro attempt _; simp [requestGo]
  | succ n ih =>
      intro attempt hfa
      obtain ⟨s, hor, hok⟩ := h attempt
      have hs : s < 400 := by simpa [responseOk] using hok
      simp only [requestGo, hor]
      rw [if_neg (by simp; omega), if_neg (by simp [hok])]
      rcases Nat.eq_zero_or_pos n with hn | hn
      · subst hn
        have ha : attempt = retryMax := by omega
        rw [if_neg (by simp [ha])]
        simp [List.range']
      · have ha : attempt < retryMax := by omega
        rw [if_pos ha, ih (attempt + 1) (by omega)]
        obtain ⟨m, rfl⟩ : ∃ m, n = m + 1 := ⟨n - 1, by omega⟩
        simp [List.range'_succ]

/-- C7 counterexample: for a request whose three attempts
(`retry_max = 2`) all return status 500, the error raised after the
final attempt is the generic `"MCP request error for {path}"`, which
carries the path only — not the response status, because the
status-carrying `MCPClientError` raised inside the loop is caught by the
loop's own `except Exception` handler — and a request whose attempts all
return OK statuses with non-JSON bodies surfaces the very same error
value, so the non-JSON failure is not distinct to the caller. -/
theorem mcp_request_error_counterexample :
    (mcpRequest 2 "/v1/tools/sql_query" (fun _ => .response 500 (some "oops"))).1 =
      .error (.requestError "/v1/tools/sql_query") ∧
    MCPErr.carriesStatus (.requestError "/v1/tools/sql_query") = false ∧
    (mcpRequest 2 "/v1/tools/sql_query" (fun _ => .response 200 none)).1 =
      .error (.requestError "/v1/tools/sql_query") ∧
    (mcpRequest 2 "/v1/tools/sql_query" (fun _ => .response 200 none)).1 =
      (mcpRequest 2 "/v1/tools/sql_query" (fun _ => .response 500 (some "oops"))).1 := by
  refine ⟨rfl, rfl, rfl, rfl⟩

/-- C7 (amended): every gateway call goes through the single retrying
request primitive; a 5xx response is retried up to the configured
maximum number of attempts with linear backoff (the sleep before the
k-th retry is `0.25 * k` seconds, recorded here in 250 ms units as
`[1, 2, ..., retryMax]`); a response with a non-JSON body is likewise
retried with the same backoff; and when every attempt has failed — by
persistent 5xx or by persistent non-JSON bodies alike — the caller
receives the typed gateway error carrying the request path only. -/
theorem mcp_request_retry_behavior (retryMax : Nat) (path : String)
    (oracle5xx oracleNonJson : Nat → AttemptOutcome)
    (h5 : ∀ n, ∃ s body, oracle5xx n = .response s body ∧ 500 ≤ s)
    (hnj : ∀ n, ∃ s, oracleNonJson n = .response s none ∧ responseOk s = true) :
    mcpRequest retryMax path oracle5xx =
      (.error (.requestError path), List.range' 1 retryMax) ∧
    mcpRequest retryMax path oracleNonJson =
      (.error (.requestError path), List.range' 1 retryMax) := by
  constructor
  · simpa using requestGo_all_5xx retryMax path oracle5xx h5 (retryMax + 1) 0 (by omega)
  · simpa using requestGo_all_nonjson retryMax path oracleNonJson hnj (retryMax + 1) 0 (by omega)

theorem mcp_request_retry_behavior_witness :
    mcpRequest 2 "/v1/tools/sql_query" (fun _ => .response 503 (some "bad gateway")) =
      (.error (.requestError "/v1/tools/sql_query"), [1, 2]) ∧
    mcpRequest 2 "/v1/tools/sql_query" (fun _ => .response 200 none) =
      (.error (.requestError "/v1/tools/sql_query"), [1, 2]) := by
  have h := mcp_request_retry_behavior 2 "/v1/tools/sql_query"
    (fun _ => .response 503 (some "bad gateway")) (fun _ => .response 200 none)
    (fun _ => ⟨503, some "bad gateway", rfl, by omega⟩)
    (fun _ => ⟨200, rfl, by decide⟩)
  simpa [List.range'] using h

theorem getItem_append_right (l : MessagesTable) (c k : String) :
    ∀ table : MessagesTable, keyExists table c k = false →
      getItem (table ++ l) c k = getItem l c k := by
  intro table
  induction table with
  | nil => intro _; simp
  | cons i t ih =>
      intro h
      simp only [keyExists, List.any_cons, Bool.or_eq_false_iff] at h
      obtain ⟨hi, ht⟩ := h
      simp only [List.cons_append, getItem]
      rw [List.find?_cons_of_neg _ (by simp [hi])]
      exact ih (by simpa [keyExists] using ht)

theorem get_chat_messages_append (t1 t2 : MessagesTable) (c : String) :
    get_chat_messages (t1 ++ t2) c = get_chat_messages t1 c ++ get_chat_messages t2 c := by
  simp [get_chat_messages, List.filter_append]

/-- C3: calling `save_message` twice with the same
`(chat_id, idempotency_key)` — even with different role/content/trace
and a different generated timestamp and uuid the second time — returns
the message id created by the first call from both calls, leaves the
table unchanged by the second call, and a subsequent guard-filtered read
of the chat's turns contains exactly one turn carrying that idempotency
key; the guard collision is resolved by returning the existing id, not
surfaced as an error (`none`). -/
theorem save_message_idempotent (table : MessagesTable)
    (chatId role1 role2 content1 content2 key ts1 ts2 id1 id2 : String)
    (trace1 trace2 : Option String)
    (hGuardFresh : keyExists table chatId (buildIdempotencyGuardSortKey key) = false)
    (hTsFresh : keyExists table chatId ts1 = false)
    (hTsNotGuard : pyStartsWith ts1 IDEMPOTENCY_GUARD_MARKER = false)
    (hNoPrior : (get_chat_messages table chatId).filter
      (fun i => i.idempotency_key = some key) = []) :
    (save_message table chatId role1 content1 trace1 (some key) ts1 id1).2 = some id1 ∧
    (save_message (save_message table chatId role1 content1 trace1 (some key) ts1 id1).1
      chatId role2 content2 trace2 (some key) ts2 id2).2 = some id1 ∧
    (save_message (save_message table chatId role1 content1 trace1 (some key) ts1 id1).1
      chatId role2 content2 trace2 (some key) ts2 id2).1 =
      (save_message table chatId role1 content1 trace1 (some key) ts1 id1).1 ∧
    ((get_chat_messages (save_message table chatId role1 content1 trace1 (some key) ts1 id1).1
      chatId).filter (fun i => i.idempotency_key = some key)).length = 1 := by
  have hfirst : save_message table chatId role1 content1 trace1 (some key) ts1 id1 =
      (table ++
        [{ chat_id := chatId, created_at := buildIdempotencyGuardSortKey key,
           message_id := some id1, idempotency_key := some key,
           item_type := some "idempotency_guard", message_created_at := some ts1 },
         { chat_id := chatId, created_at := ts1, message_id := some id1,
           role := some role1, content := some content1, trace_id := trace1,
           idempotency_key := some key }], some id1) := by
    simp [save_message, transactPutTwo, hGuardFresh, hTsFresh]
  have hfst1 : (save_message table chatId role1 content1 trace1 (some key) ts1 id1).1 =
      table ++
        [{ chat_id := chatId, created_at := buildIdempotencyGuardSortKey key,
           message_id := some id1, idempotency_key := some key,
           item_type := some "idempotency_guard", message_created_at := some ts1 },
         { chat_id := chatId, created_at := ts1, message_id := some id1,
           role := some role1, content := some content1, trace_id := trace1,
           idempotency_key := some key }] := by
    rw [hfirst]
  have hkey2 : keyExists
      (table ++
        [{ chat_id := chatId, created_at := buildIdempotencyGuardSortKey key,
           message_id := some id1, idempotency_key := some key,
           item_type := some "idempotency_guard", message_created_at := some ts1 },
         { chat_id := chatId, created_at := ts1, message_id := some id1,
           role := some role1, content := some content1, trace_id := trace1,
           idempotency_key := some key }])
      chatId (buildIdempotencyGuardSortKey key) = true := by
    simp [keyExists, List.any_append]
  have hget : getItem
      (table ++
        [{ chat_id := chatId, created_at := buildIdempotencyGuardSortKey key,
           message_id := some id1, idempotency_key := some key,
           item_type := some "idempotency_guard", message_created_at := some ts1 },
         { chat_id := chatId, created_at := ts1, message_id := some id1,
           role := some role1, content := some content1, trace_id := trace1,
           idempotency_key := some key }])
      chatId (buildIdempotencyGuardSortKey key) =
      some { chat_id := chatId, created_at := buildIdempotencyGuardSortKey key,
             message_id := some id1, idempotency_key := some key,
             item_type := some "idempotency_guard", message_created_at := some ts1 } := by
    rw [getItem_append_right _ chatId _ table hGuardFresh]
    simp [getItem]
  have hsecond : save_message
      (table ++
        [{ chat_id := chatId, created_at := buildIdempotencyGuardSortKey key,
           message_id := some id1, idempotency_key := some key,
           item_type := some "idempotency_guard", message_created_at := some ts1 },
         { chat_id := chatId, created_at := ts1, message_id := some id1,
           role := some role1, content := some content1, trace_id := trace1,
           idempotency_key := some key }])
      chatId role2 content2 trace2 (some key) ts2 id2 =
      (table ++
        [{ chat_id := chatId, created_at := buildIdempotencyGuardSortKey key,
           message_id := some id1, idempotency_key := some key,
           item_type := some "idempotency_guard", message_created_at := some ts1 },
         { chat_id := chatId, created_at := ts1, message_id := some id1,
           role := some role1, content := some content1, trace_id := trace1,
           idempotency_key := some key }], some id1) := by
    simp [save_message, transactPutTwo, hkey2, hget]
  refine ⟨by rw [hfirst], ?_, ?_, ?_⟩
  · rw [hfst1, hsecond]
  · rw [hfst1, hsecond]
  · rw [hfst1, get_chat_messages_append, List.filter_append, hNoPrior]
    simp [get_chat_messages, isIdempotencyGuardItem, hTsNotGuard]

theorem save_message_idempotent_witness :
    (save_message [] "chat1" "user" "hello" none (some "k1")
      "2024-01-01T00:00:00" "id-1").2 = some "id-1" ∧
    (save_message (save_message [] "chat1" "user" "hello" none (some "k1")
        "2024-01-01T00:00:00" "id-1").1
      "chat1" "agent" "DIFFERENT" none (some "k1") "2024-01-01T00:00:05" "id-2").2 =
      some "id-1" ∧
    (save_message (save_message [] "chat1" "user" "hello" none (some "k1")
        "2024-01-01T00:00:00" "id-1").1
      "chat1" "agent" "DIFFERENT" none (some "k1") "2024-01-01T00:00:05" "id-2").1 =
      (save_message [] "chat1" "user" "hello" none (some "k1")
        "2024-01-01T00:00:00" "id-1").1 ∧
    ((get_chat_messages (save_message [] "chat1" "user" "hello" none (some "k1")
        "2024-01-01T00:00:00" "id-1").1
      "chat1").filter (fun i => i.idempotency_key = some "k1")).length = 1 :=
  save_message_idempotent [] "chat1" "user" "agent" "hello" "DIFFERENT" "k1"
    "2024-01-01T00:00:00" "2024-01-01T00:00:05" "id-1" "id-2" none none
    (by decide) (by decide) (by decide) (by decide)

end Tonpixo
